import Mathlib

/-!
Shallow embedding of the ml-cicd-pipeline repository core:
the training pipeline (`src/train.py`, class `ModelTrainer`) and the
prediction service (`src/predict.py`, class `ModelPredictor` plus its
Flask endpoints).  Python floats are modelled as rationals, Python
dictionaries as ordered association lists (CPython dicts preserve
insertion order), raised exceptions as `Except String`, the file system
as a partial map from paths to file contents, and wall-clock time
(`datetime.now().isoformat()`) as an explicit `String` parameter.
The scikit-learn library is the opaque capability the spec describes:
a record of pure functions (a fixed seed is always passed in, so each
capability call is a deterministic function of its arguments).
-/

namespace MLCICD

/-! ### Python string `replace` (used by both `train.py` and `predict.py`) -/

/-- Python `s.replace(pat, rep)` on character lists: replaces every
non-overlapping occurrence of `pat` left to right.  Structurally
recursive on an explicit fuel; each step consumes at least one input
character, so fuel equal to the input length (as supplied by
`pyReplace`) always suffices and the `0`-fuel fallback is unreachable.
(Python treats an empty pattern specially; the code only ever calls
`replace` with the non-empty patterns `".joblib"` and `"min_"`.) -/
def replaceFuel (pat rep : List Char) : ℕ → List Char → List Char
  | _, [] => []
  | 0, s => s
  | fuel + 1, c :: rest =>
    if pat ≠ [] ∧ pat.isPrefixOf (c :: rest) = true then
      rep ++ replaceFuel pat rep fuel ((c :: rest).drop pat.length)
    else
      c :: replaceFuel pat rep fuel rest

/-- Python `pat in s` for character lists (substring containment). -/
def containsSub (pat : List Char) : List Char → Bool
  | [] => pat.isEmpty
  | c :: rest => pat.isPrefixOf (c :: rest) || containsSub pat rest

/-- Python `s.replace(pat, rep)` on strings. -/
def pyReplace (s pat rep : String) : String :=
  ⟨replaceFuel pat.data rep.data s.data.length s.data⟩

/-! ### Data model: metric records and configuration -/

/-- A value stored in the metrics dictionary: the four scores are floats
(modelled as rationals), the `timestamp` entry is a string. -/
inductive MValue
  | num (q : ℚ)
  | str (s : String)
deriving DecidableEq, Repr

/-- The metrics dictionary built by `ModelTrainer.evaluate_model`:
an insertion-ordered mapping from name to value. -/
abbrev Metrics := List (String × MValue)

/-- Python `name in metrics` / `metrics[name]`: first binding of a key. -/
def mlookup (m : Metrics) (k : String) : Option MValue :=
  match m with
  | [] => none
  | (k2, v) :: rest => if k2 = k then some v else mlookup rest k

/-- The `model:` section of the configuration. -/
structure ModelParams where
  n_estimators : ℕ
  max_depth : ℕ
  random_state : ℕ
deriving DecidableEq, Repr

/-- The `training:` section of the configuration. -/
structure TrainingParams where
  test_size : ℚ
  random_state : ℕ
deriving DecidableEq, Repr

/-- The full training configuration (`model`, `training`,
`quality_gates` namespaces), as loaded by `ModelTrainer.load_config`. -/
structure Config where
  model : ModelParams
  training : TrainingParams
  quality_gates : List (String × ℚ)
deriving DecidableEq, Repr

/-- The hardcoded fallback configuration in `ModelTrainer.load_config`
(`train.py` lines 30-40). -/
def default_config : Config :=
  { model := { n_estimators := 100, max_depth := 10, random_state := 42 }
    training := { test_size := mkRat 1 5, random_state := 42 }
    quality_gates :=
      [("min_accuracy", mkRat 17 20), ("min_precision", mkRat 4 5),
       ("min_recall", mkRat 4 5), ("min_f1", mkRat 4 5)] }

/-- What reading and YAML-parsing the configuration file can yield:
the file is missing (`FileNotFoundError`), present but not valid YAML
(`yaml.YAMLError`), or parses to a configuration. -/
inductive ConfigFile
  | missing
  | malformed
  | parsed (c : Config)

/-- `ModelTrainer.load_config` (`train.py` lines 23-40): opens and
parses the file; the `except FileNotFoundError` clause substitutes the
default configuration only when the file is absent — a YAML parse error
is not caught and propagates to the caller. -/
def load_config : ConfigFile → Except String Config
  | .missing => .ok default_config
  | .malformed => .error "yaml.YAMLError: could not parse configuration file"
  | .parsed c => .ok c

/-! ### Quality gates (`ModelTrainer.check_quality_gates`) -/

/-- The metric name a gate key is compared against:
`gate.replace("min_", "")` (`train.py` line 113). -/
def gate_metric_name (gate : String) : String :=
  pyReplace gate "min_" ""

/-- The loop body of `check_quality_gates` (`train.py` lines 112-127):
walks the gate dictionary in order keeping the `passed` flag and the
`failed_gates` list; a gate whose metric name is absent from the metrics
dictionary is skipped; comparing the string-valued `timestamp` entry
against a float would raise a `TypeError`. -/
def checkGatesAux (metrics : Metrics) :
    List (String × ℚ) → Bool → List String → Except String (Bool × List String)
  | [], passed, failed => .ok (passed, failed)
  | (gate, threshold) :: rest, passed, failed =>
    let name := gate_metric_name gate
    match mlookup metrics name with
    | none => checkGatesAux metrics rest passed failed
    | some (.str _) => .error "TypeError: unorderable comparison of str and float"
    | some (.num v) =>
      if v < threshold then
        checkGatesAux metrics rest false
          (failed ++ [name ++ ": " ++ toString v ++ " < " ++ toString threshold])
      else
        checkGatesAux metrics rest passed failed

/-- `ModelTrainer.check_quality_gates` (`train.py` lines 105-133):
aggregates every failing gate, then raises one `ValueError` listing all
of them when any gate failed, and otherwise returns `True`. -/
def check_quality_gates (gates : List (String × ℚ)) (metrics : Metrics) :
    Except String Bool :=
  match checkGatesAux metrics gates true [] with
  | .error e => .error e
  | .ok (passed, failed) =>
    if passed then .ok true
    else .error ("Quality gates failed: " ++ String.intercalate ", " failed)

/-! ### The opaque learning-library capability (scikit-learn) -/

/-- A fitted classifier capability, as the spec treats it: opaque
`predict` and `predict_proba` on one feature row.  `train.py` calls
`model.predict` on a whole matrix (modelled row by row) and `predict.py`
reshapes a single feature list into a one-row matrix and takes element
`[0]` of the result. -/
structure FittedModel where
  predictFn : List ℚ → ℤ
  predictProbaFn : List ℚ → List ℚ

/-- The fixed tabular dataset (`load_breast_cancer`): feature rows and
binary labels. -/
structure RawDataset where
  rows : List (List ℚ)
  labels : List ℤ

/-- A stratified train/test split, as returned by `train_test_split`. -/
structure DataSplit where
  X_train : List (List ℚ)
  X_test : List (List ℚ)
  y_train : List ℤ
  y_test : List ℤ

/-- The external-library capability record: the fixed dataset, the
seeded stratified splitter, the seeded random-forest fit, and the four
`sklearn.metrics` scorers (weighted averaging for precision/recall/F1).
Every random source the code uses receives its seed as an argument, so
each capability is a pure function of its inputs. -/
structure MLLib where
  breast_cancer : RawDataset
  train_test_split : List (List ℚ) → List ℤ → ℚ → ℕ → DataSplit
  fitRF : ModelParams → List (List ℚ) → List ℤ → FittedModel
  accuracy_score : List ℤ → List ℤ → ℚ
  precision_weighted : List ℤ → List ℤ → ℚ
  recall_weighted : List ℤ → List ℤ → ℚ
  f1_weighted : List ℤ → List ℤ → ℚ

/-- The number of feature columns the Data Provider keeps:
`data.data[:, :10]` in `ModelTrainer.load_data` (`train.py` line 49). -/
def data_provider_num_features : ℕ := 10

/-- `ModelTrainer.load_data` (`train.py` lines 42-63): restrict the
dataset to its first 10 feature columns, then split with the configured
test fraction and seed, stratified on the labels. -/
def load_data (lib : MLLib) (cfg : Config) : DataSplit :=
  let X := lib.breast_cancer.rows.map (fun r => r.take data_provider_num_features)
  lib.train_test_split X lib.breast_cancer.labels
    cfg.training.test_size cfg.training.random_state

/-- `ModelTrainer.train_model` (`train.py` lines 65-80): instantiate the
classifier with the configured hyperparameters (including the seed) and
fit it on the training split. -/
def train_model (lib : MLLib) (cfg : Config)
    (Xtr : List (List ℚ)) (ytr : List ℤ) : FittedModel :=
  lib.fitRF cfg.model Xtr ytr

/-- `ModelTrainer.evaluate_model` (`train.py` lines 82-103): predict on
the held-out rows and build the metrics dictionary, in insertion order,
ending with the wall-clock timestamp (`datetime.now().isoformat()`,
passed here as the explicit argument `now`). -/
def evaluate_model (lib : MLLib) (model : FittedModel)
    (Xte : List (List ℚ)) (yte : List ℤ) (now : String) : Metrics :=
  let ypred := Xte.map model.predictFn
  [("accuracy", .num (lib.accuracy_score yte ypred)),
   ("precision", .num (lib.precision_weighted yte ypred)),
   ("recall", .num (lib.recall_weighted yte ypred)),
   ("f1_score", .num (lib.f1_weighted yte ypred)),
   ("timestamp", .str now)]

/-- One complete training run producing the metrics record: load the
data, fit, evaluate (`run_training_pipeline` stages 1-3), with the
evaluation timestamp as explicit input. -/
def training_run_metrics (lib : MLLib) (cfg : Config) (now : String) : Metrics :=
  let split := load_data lib cfg
  let model := train_model lib cfg split.X_train split.y_train
  evaluate_model lib model split.X_test split.y_test now

/-! ### Artifact store: file system, `save_model`, `load_model` -/

/-- Contents of a file the core touches: a joblib-serialized model blob
or a JSON metrics document. -/
inductive FileData
  | joblibModel (m : FittedModel)
  | jsonData (j : Metrics)

/-- The file system: a partial map from paths to contents. -/
def FS := String → Option FileData

/-- Writing a file (creating or overwriting). -/
def FS.write (fs : FS) (p : String) (d : FileData) : FS :=
  fun q => if q = p then some d else fs q

/-- The metrics path the Trainer derives in `save_model`:
`model_path.replace(".joblib", "_metrics.json")` (`train.py` line 146). -/
def train_metrics_path (model_path : String) : String :=
  pyReplace model_path ".joblib" "_metrics.json"

/-- The metrics path the Predictor derives in `load_model`:
`self.model_path.replace(".joblib", "_metrics.json")`
(`predict.py` line 31). -/
def predict_metrics_path (model_path : String) : String :=
  pyReplace model_path ".joblib" "_metrics.json"

/-- `ModelTrainer.save_model` (`train.py` lines 135-151): dump the model
blob to `model_path`, then write the metrics JSON to the derived metrics
path (when the two paths coincide the second write overwrites the
first), and return the model path.  Directory creation has no effect on
the path-to-contents map. -/
def save_model (fs : FS) (model_path : String)
    (m : FittedModel) (metrics : Metrics) : FS × String :=
  let fs1 := fs.write model_path (.joblibModel m)
  let fs2 := fs1.write (train_metrics_path model_path) (.jsonData metrics)
  (fs2, model_path)

/-! ### The Predictor (`predict.py`) -/

/-- The state of a `ModelPredictor` instance. -/
structure ModelPredictor where
  model_path : String
  model : Option FittedModel
  model_info : Metrics

/-- `ModelPredictor.load_model` (`predict.py` lines 24-45): when the
model file exists, unpickle it (a file that is not a joblib blob makes
`joblib.load` raise, which the `except` clause turns into `False` with
no model held); then, when the derived metrics file exists, parse it as
JSON (a metrics file that is not JSON makes `json.load` raise, which the
`except` clause turns into `False` — the model stays loaded but
`model_info` stays empty).  Returns the new state and the boolean the
method returns. -/
def ModelPredictor.load_model_from (fs : FS) (path : String) :
    ModelPredictor × Bool :=
  match fs path with
  | some (.joblibModel m) =>
    match fs (predict_metrics_path path) with
    | some (.jsonData j) => (⟨path, some m, j⟩, true)
    | some (.joblibModel _) => (⟨path, some m, []⟩, false)
    | none => (⟨path, some m, []⟩, true)
  | some (.jsonData _) => (⟨path, none, []⟩, false)
  | none => (⟨path, none, []⟩, false)

/-- `ModelPredictor.__init__` (`predict.py` lines 17-22): record the
path (default `models/model.joblib`) and attempt the load at once. -/
def ModelPredictor.init (fs : FS) (path : String) : ModelPredictor :=
  (ModelPredictor.load_model_from fs path).1

/-- The feature count `ModelPredictor.predict` validates against:
the literal `10` in `predict.py` line 53. -/
def predictor_expected_features : ℕ := 10

/-- The result dictionary `ModelPredictor.predict` returns. -/
structure PredictionResult where
  prediction : ℤ
  probabilities : List ℚ
  confidence : ℚ
deriving Repr

/-- Python `max` on a list: raises on an empty sequence. -/
def pyMax : List ℚ → Except String ℚ
  | [] => .error "ValueError: max() arg is an empty sequence"
  | x :: rest => .ok (rest.foldl max x)

/-- `ModelPredictor.predict` (`predict.py` lines 47-65): first the
model-loaded check, then the feature-count validation, then one row of
`predict` / `predict_proba` with the maximum probability as
confidence. -/
def ModelPredictor.predict (p : ModelPredictor) (features : List ℚ) :
    Except String PredictionResult :=
  match p.model with
  | none => .error "Model not loaded"
  | some m =>
    if features.length ≠ predictor_expected_features then
      .error ("Expected 10 features, got " ++ toString features.length)
    else
      let probabilities := m.predictProbaFn features
      match pyMax probabilities with
      | .error e => .error e
      | .ok conf =>
        .ok { prediction := m.predictFn features
              probabilities := probabilities
              confidence := conf }

/-! ### The HTTP surface (`predict.py` Flask endpoints) -/

/-- Body of the `/health` response (`predict.py` lines 72-82). -/
structure HealthBody where
  status : String
  model_loaded : Bool
  model_info : Metrics
  timestamp : String

/-- `GET /health` (`predict.py` lines 72-82): an unconditional `jsonify`
of the predictor state, with Flask's default status 200.  The current
time is the explicit argument `now`. -/
def health_check (p : ModelPredictor) (now : String) : ℕ × HealthBody :=
  (200,
   { status := if p.model.isSome then "healthy" else "unhealthy"
     model_loaded := p.model.isSome
     model_info := p.model_info
     timestamp := now })

/-- Successful body of the `/predict` response. -/
structure PredictSuccess where
  prediction : ℤ
  probabilities : List ℚ
  confidence : ℚ
  timestamp : String
  model_version : MValue

/-- Body of the `/predict` response: the success dictionary or an
`{"error": ...}` dictionary. -/
inductive PredictResponse
  | success (r : PredictSuccess)
  | failure (error : String)

/-- `POST /predict` (`predict.py` lines 85-107): a missing `features`
key gives 400; otherwise `predictor.predict` runs and ANY exception it
raises — including "Model not loaded" — is caught by the blanket
`except` and returned as 400 with the exception message.  On success the
result is decorated with the current timestamp and a model version taken
from `model_info.get("timestamp", "unknown")`, status 200.  The request
body is modelled by its optional `features` entry. -/
def predict_endpoint (p : ModelPredictor) (now : String)
    (featuresEntry : Option (List ℚ)) : ℕ × PredictResponse :=
  match featuresEntry with
  | none => (400, .failure "Missing features in request")
  | some features =>
    match p.predict features with
    | .error e => (400, .failure e)
    | .ok r =>
      (200, .success
        { prediction := r.prediction
          probabilities := r.probabilities
          confidence := r.confidence
          timestamp := now
          model_version :=
            match mlookup p.model_info "timestamp" with
            | some v => v
            | none => .str "unknown" })

/-- Body of the `/model/info` response (`predict.py` lines 110-119). -/
structure ModelInfoBody where
  model_path : String
  model_loaded : Bool
  model_metrics : Metrics

/-- `GET /model/info` (`predict.py` lines 110-119): unconditional 200
with the predictor state. -/
def model_info_endpoint (p : ModelPredictor) : ℕ × ModelInfoBody :=
  (200,
   { model_path := p.model_path
     model_loaded := p.model.isSome
     model_metrics := p.model_info })

/-! ### The pipeline driver (`ModelTrainer.run_training_pipeline`) -/

/-- The five pipeline stages, in source order. -/
inductive Stage
  | loadData
  | trainModel
  | evaluateModel
  | checkGates
  | saveModel
deriving DecidableEq, Repr

/-- The outcome each stage produces when it runs.  Each of the data,
training, evaluation and save stages may raise (data errors, library
errors, I/O errors propagate out of them); the quality-gate stage is the
concrete `check_quality_gates` applied to the evaluation result.  An
`Except` value records what the stage's body does when invoked. -/
structure PipelineEnv where
  loadData : Except String DataSplit
  trainModel : DataSplit → Except String FittedModel
  evaluateModel : FittedModel → DataSplit → Except String Metrics
  saveModel : FittedModel → Metrics → Except String String

/-- How `run_training_pipeline` terminates: either the normal return
`(model_path, metrics)` — the driver process then exits 0 — or
`sys.exit(n)` from the `except` handler. -/
inductive PipelineOutcome
  | success (model_path : String) (metrics : Metrics)
  | exitCode (n : ℕ)
deriving DecidableEq, Repr

/-- `ModelTrainer.run_training_pipeline` (`train.py` lines 153-178): the
five stages run strictly in order inside one `try`; the first raise
jumps to the handler, which calls `sys.exit(1)`.  Returns the outcome
together with the list of stages that were actually invoked. -/
def run_training_pipeline (cfg : Config) (env : PipelineEnv) :
    PipelineOutcome × List Stage :=
  match env.loadData with
  | .error _ => (.exitCode 1, [.loadData])
  | .ok split =>
    match env.trainModel split with
    | .error _ => (.exitCode 1, [.loadData, .trainModel])
    | .ok model =>
      match env.evaluateModel model split with
      | .error _ => (.exitCode 1, [.loadData, .trainModel, .evaluateModel])
      | .ok metrics =>
        match check_quality_gates cfg.quality_gates metrics with
        | .error _ =>
          (.exitCode 1, [.loadData, .trainModel, .evaluateModel, .checkGates])
        | .ok _ =>
          match env.saveModel model metrics with
          | .error _ =>
            (.exitCode 1,
             [.loadData, .trainModel, .evaluateModel, .checkGates, .saveModel])
          | .ok path =>
            (.success path metrics,
             [.loadData, .trainModel, .evaluateModel, .checkGates, .saveModel])

/-- The process exit code of the `__main__` driver: `sys.exit(1)` on any
stage failure, normal termination (exit 0) on success. -/
def driver_exit_code : PipelineOutcome → ℕ
  | .success _ _ => 0
  | .exitCode n => n

/-! ### Concrete fixtures for witnesses and counterexamples -/

/-- A metrics record as `evaluate_model` produces it, with every score
comfortably above its default gate except `f1_score`, which is far below
the 0.80 `min_f1` threshold. -/
def c1_failing_metrics : Metrics :=
  [("accuracy", .num (mkRat 9 10)), ("precision", .num (mkRat 9 10)),
   ("recall", .num (mkRat 9 10)), ("f1_score", .num 0),
   ("timestamp", .str "2024-01-01T00:00:00")]

/-- A trivially fitted classifier capability: always class 1 with
probabilities one half each. -/
def dummy_model : FittedModel :=
  { predictFn := fun _ => 1, predictProbaFn := fun _ => [mkRat 1 2, mkRat 1 2] }

/-- The empty file system. -/
def empty_fs : FS := fun _ => none

/-- A small metrics record for artifact-store round trips. -/
def sample_metrics : Metrics := [("accuracy", .num (mkRat 9 10))]

/-- A well-formed feature vector of the expected length 10. -/
def ten_zero_features : List ℚ := List.replicate 10 0

/-- A metrics record whose accuracy fails the default 0.85 gate. -/
def gate_fail_metrics : Metrics := [("accuracy", .num 0)]

/-- A pipeline environment whose first three stages succeed and whose
evaluation result fails the default accuracy gate. -/
def c4_gate_fail_env : PipelineEnv :=
  { loadData := .ok ⟨[], [], [], []⟩
    trainModel := fun _ => .ok dummy_model
    evaluateModel := fun _ _ => .ok gate_fail_metrics
    saveModel := fun _ _ => .ok "models/model.joblib" }

/-- A concrete instantiation of the external-library capability record,
used to evaluate training runs on explicit inputs. -/
def const_lib : MLLib :=
  { breast_cancer := { rows := [[1], [0]], labels := [1, 0] }
    train_test_split := fun X y _ _ => ⟨X, X, y, y⟩
    fitRF := fun _ _ _ => dummy_model
    accuracy_score := fun _ _ => 1
    precision_weighted := fun _ _ => 1
    recall_weighted := fun _ _ => 1
    f1_weighted := fun _ _ => 1 }

/-! ### Helper lemmas on Python string `replace` -/

/-- `replace` with a pattern that does not occur is the identity,
independently of the fuel. -/
theorem replaceFuel_eq_of_not_contains (pat rep : List Char) :
    ∀ (s : List Char) (fuel : ℕ), containsSub pat s = false →
      replaceFuel pat rep fuel s = s := by
  intro s
  induction s with
  | nil => intro fuel _; cases fuel <;> rfl
  | cons c rest ih =>
    intro fuel h
    rw [containsSub, Bool.or_eq_false_iff] at h
    cases fuel with
    | zero => rfl
    | succ fuel =>
      rw [replaceFuel, if_neg (by simp [h.1])]
      rw [ih fuel h.2]

/-- When the replacement is at least as long as the pattern, `replace`
never shortens its input. -/
theorem le_length_replaceFuel (pat rep : List Char) (hp : pat.length ≤ rep.length) :
    ∀ (fuel : ℕ) (s : List Char), s.length ≤ (replaceFuel pat rep fuel s).length := by
  intro fuel
  induction fuel with
  | zero => intro s; cases s <;> simp [replaceFuel]
  | succ fuel ih =>
    intro s
    cases s with
    | nil => simp [replaceFuel]
    | cons c rest =>
      rw [replaceFuel]
      by_cases h : pat ≠ [] ∧ pat.isPrefixOf (c :: rest) = true
      · rw [if_pos h]
        have hple : pat.length ≤ (c :: rest).length :=
          (List.isPrefixOf_iff_prefix.mp h.2).length_le
        have hle := ih ((c :: rest).drop pat.length)
        simp only [List.length_append, List.length_drop] at *
        omega
      · rw [if_neg h]
        have := ih rest
        simp only [List.length_cons] at *
        omega

/-- When the replacement is strictly longer than the (non-empty)
pattern and the pattern occurs, `replace` strictly lengthens its input
(given enough fuel). -/
theorem lt_length_replaceFuel (pat rep : List Char) (hne : pat ≠ [])
    (hp : pat.length < rep.length) :
    ∀ (fuel : ℕ) (s : List Char), containsSub pat s = true → s.length ≤ fuel →
      s.length < (replaceFuel pat rep fuel s).length := by
  intro fuel
  induction fuel with
  | zero =>
    intro s hc hf
    have hnil : s = [] := List.length_eq_zero.mp (Nat.le_zero.mp hf)
    subst hnil
    rw [containsSub, List.isEmpty_iff] at hc
    exact absurd hc hne
  | succ fuel ih =>
    intro s hc hf
    cases s with
    | nil =>
      rw [containsSub, List.isEmpty_iff] at hc
      exact absurd hc hne
    | cons c rest =>
      rw [replaceFuel]
      by_cases h : pat ≠ [] ∧ pat.isPrefixOf (c :: rest) = true
      · rw [if_pos h]
        have hple : pat.length ≤ (c :: rest).length :=
          (List.isPrefixOf_iff_prefix.mp h.2).length_le
        have hle := le_length_replaceFuel pat rep (le_of_lt hp) fuel
          ((c :: rest).drop pat.length)
        simp only [List.length_append, List.length_drop] at *
        omega
      · rw [if_neg h]
        rw [containsSub, Bool.or_eq_true_iff] at hc
        rcases hc with hc | hc
        · exact absurd ⟨hne, hc⟩ h
        · have hf2 : rest.length ≤ fuel := by
            simp only [List.length_cons] at hf
            omega
          have := ih rest hc hf2
          simp only [List.length_cons] at *
          omega

/-- Python `s.replace(pat, rep) == s` when `pat` does not occur in `s`. -/
theorem pyReplace_eq_of_not_contains (s pat rep : String)
    (h : containsSub pat.data s.data = false) : pyReplace s pat rep = s := by
  rw [pyReplace,
    replaceFuel_eq_of_not_contains pat.data rep.data s.data s.data.length h]

/-- Python `s.replace(pat, rep) != s` when the non-empty `pat` occurs in
`s` and `rep` is strictly longer than `pat`. -/
theorem pyReplace_ne_of_contains (s pat rep : String) (hne : pat.data ≠ [])
    (hp : pat.data.length < rep.data.length)
    (hc : containsSub pat.data s.data = true) : pyReplace s pat rep ≠ s := by
  intro he
  have hd : replaceFuel pat.data rep.data s.data.length s.data = s.data :=
    congrArg String.data he
  have hlt := lt_length_replaceFuel pat.data rep.data hne hp s.data.length s.data hc le_rfl
  rw [hd] at hlt
  exact lt_irrefl _ hlt

/-! ### Claim theorems -/

/-- C1: against the default gate configuration, `check_quality_gates`
does NOT check all four gates: the `min_f1` key strips to the metric
name `f1`, which is absent from the metrics record (the Evaluator writes
`f1_score`), so the gate is silently skipped — a record whose `f1_score`
is 0, far below the 0.80 threshold, still passes the gate check without
raising. -/
theorem c1_min_f1_gate_silently_skipped :
    gate_metric_name "min_f1" = "f1" ∧
    mlookup c1_failing_metrics "f1" = none ∧
    mlookup c1_failing_metrics "f1_score" = some (MValue.num 0) ∧
    (0 : ℚ) < mkRat 4 5 ∧
    check_quality_gates default_config.quality_gates c1_failing_metrics =
      Except.ok true := by
  refine ⟨by decide, by decide, by decide, by norm_num, by rfl⟩

/-- C2 counterexample: a configuration file that is present but
unparsable makes `load_config` raise — `yaml.safe_load`'s error is not
caught by the `except FileNotFoundError` clause — contradicting "never
raises an exception to its caller". -/
theorem c2_unparsable_config_raises :
    load_config ConfigFile.malformed =
      Except.error "yaml.YAMLError: could not parse configuration file" := rfl

/-- C2 (amended): when the configuration file is absent, `load_config`
returns the built-in default configuration (100 estimators, max depth
10, seed 42, test fraction 0.2, gates accuracy 0.85 and precision,
recall, f1 each 0.80) without raising, and a file that parses is
returned as is; only an unparsable file raises. -/
theorem c2_load_config_missing_defaults :
    load_config ConfigFile.missing = Except.ok default_config ∧
    default_config =
      { model := { n_estimators := 100, max_depth := 10, random_state := 42 }
        training := { test_size := mkRat 1 5, random_state := 42 }
        quality_gates :=
          [("min_accuracy", mkRat 17 20), ("min_precision", mkRat 4 5),
           ("min_recall", mkRat 4 5), ("min_f1", mkRat 4 5)] } ∧
    (∀ cfg : Config, load_config (ConfigFile.parsed cfg) = Except.ok cfg) :=
  ⟨rfl, rfl, fun _ => rfl⟩

/-- C3 counterexample: with no model loaded and a well-formed request of
ten features, the `/predict` endpoint answers 400, not 503 — the blanket
`except` clause maps the "Model not loaded" error to the same status
class as malformed input. -/
theorem c3_unloaded_predict_is_400_not_503 :
    (predict_endpoint ⟨"models/model.joblib", none, []⟩ "t"
        (some ten_zero_features)).1 = 400 ∧
    (predict_endpoint ⟨"models/model.joblib", none, []⟩ "t"
        (some ten_zero_features)).1 ≠ 503 :=
  ⟨rfl, by decide⟩

/-- C3 (amended): when the Predictor holds no loaded model,
`ModelPredictor.predict` raises the explicit "Model not loaded" error
for every input, and the `/predict` endpoint surfaces it to the HTTP
caller as a 400 response carrying that message — the same 400 status
class used for malformed input (e.g. a missing `features` key), not a
distinct 503 service-unavailable response. -/
theorem c3_unloaded_surfaced_as_400
    (path : String) (info : Metrics) (features : List ℚ) (now : String) :
    ModelPredictor.predict ⟨path, none, info⟩ features =
      Except.error "Model not loaded" ∧
    predict_endpoint ⟨path, none, info⟩ now (some features) =
      (400, PredictResponse.failure "Model not loaded") ∧
    (predict_endpoint ⟨path, none, info⟩ now none).1 = 400 :=
  ⟨rfl, rfl, rfl⟩

/-- C6: for every predictor state and time, `/health` answers 200 with a
`model_loaded` boolean that is true exactly when a model is held, a
status string that is "healthy" exactly when a model is held and
"unhealthy" otherwise, the currently-held metrics record, and the
timestamp; the handler is total, so health reporting never fails. -/
theorem c6_health_endpoint_contract (p : ModelPredictor) (now : String) :
    (health_check p now).1 = 200 ∧
    ((health_check p now).2.model_loaded = true ↔ p.model.isSome = true) ∧
    ((health_check p now).2.status = "healthy" ↔ p.model.isSome = true) ∧
    ((health_check p now).2.status = "unhealthy" ↔ p.model.isSome = false) ∧
    (health_check p now).2.model_info = p.model_info ∧
    (health_check p now).2.timestamp = now := by
  cases hm : p.model <;> simp [health_check, hm]

/-- C9: the model-loaded check precedes input validation in
`ModelPredictor.predict`: with no model held, every input — of any
length, including wrong feature counts — yields the "Model not loaded"
error, never a shape error. -/
theorem c9_unloaded_error_precedes_shape_check
    (path : String) (info : Metrics) (features : List ℚ) :
    ModelPredictor.predict ⟨path, none, info⟩ features =
      Except.error "Model not loaded" := rfl

/-- C4: the training pipeline runs its stages strictly in source order
(the invoked-stage trace is always an initial segment of load, train,
evaluate, gate, save); a quality-gate failure after successful earlier
stages exits with code 1 without ever invoking `save_model`; every
failing run exits with code 1; and a fully successful run returns the
model path and metrics with driver exit code 0. -/
theorem c4_pipeline_sequencing (cfg : Config) (env : PipelineEnv) :
    ((run_training_pipeline cfg env).2 = [Stage.loadData] ∨
     (run_training_pipeline cfg env).2 = [Stage.loadData, Stage.trainModel] ∨
     (run_training_pipeline cfg env).2 =
       [Stage.loadData, Stage.trainModel, Stage.evaluateModel] ∨
     (run_training_pipeline cfg env).2 =
       [Stage.loadData, Stage.trainModel, Stage.evaluateModel, Stage.checkGates] ∨
     (run_training_pipeline cfg env).2 =
       [Stage.loadData, Stage.trainModel, Stage.evaluateModel, Stage.checkGates,
        Stage.saveModel]) ∧
    (∀ split model metrics,
      env.loadData = Except.ok split →
      env.trainModel split = Except.ok model →
      env.evaluateModel model split = Except.ok metrics →
      (check_quality_gates cfg.quality_gates metrics).isOk = false →
      (run_training_pipeline cfg env).1 = PipelineOutcome.exitCode 1 ∧
      Stage.saveModel ∉ (run_training_pipeline cfg env).2) ∧
    (∀ n, (run_training_pipeline cfg env).1 = PipelineOutcome.exitCode n → n = 1) ∧
    (∀ split model metrics ok path,
      env.loadData = Except.ok split →
      env.trainModel split = Except.ok model →
      env.evaluateModel model split = Except.ok metrics →
      check_quality_gates cfg.quality_gates metrics = Except.ok ok →
      env.saveModel model metrics = Except.ok path →
      (run_training_pipeline cfg env).1 = PipelineOutcome.success path metrics ∧
      driver_exit_code (run_training_pipeline cfg env).1 = 0) := by
  refine ⟨?_, ?_, ?_, ?_⟩
  · cases hl : env.loadData with
    | error e0 => simp [run_training_pipeline, hl]
    | ok split =>
      cases hm : env.trainModel split with
      | error e0 => simp [run_training_pipeline, hl, hm]
      | ok model =>
        cases he : env.evaluateModel model split with
        | error e0 => simp [run_training_pipeline, hl, hm, he]
        | ok metrics =>
          cases hg : check_quality_gates cfg.quality_gates metrics with
          | error e0 => simp [run_training_pipeline, hl, hm, he, hg]
          | ok okv =>
            cases hs : env.saveModel model metrics with
            | error e0 => simp [run_training_pipeline, hl, hm, he, hg, hs]
            | ok path => simp [run_training_pipeline, hl, hm, he, hg, hs]
  · intro split model metrics hl hm he hg
    cases hgc : check_quality_gates cfg.quality_gates metrics with
    | error e0 =>
      refine ⟨?_, ?_⟩ <;> simp [run_training_pipeline, hl, hm, he, hgc]
    | ok b =>
      rw [hgc] at hg
      simp [Except.isOk, Except.toBool] at hg
  · intro n hn
    cases hl : env.loadData with
    | error e0 =>
      simp [run_training_pipeline, hl] at hn
      omega
    | ok split =>
      cases hm : env.trainModel split with
      | error e0 =>
        simp [run_training_pipeline, hl, hm] at hn
        omega
      | ok model =>
        cases he : env.evaluateModel model split with
        | error e0 =>
          simp [run_training_pipeline, hl, hm, he] at hn
          omega
        | ok metrics =>
          cases hg : check_quality_gates cfg.quality_gates metrics with
          | error e0 =>
            simp [run_training_pipeline, hl, hm, he, hg] at hn
            omega
          | ok okv =>
            cases hs : env.saveModel model metrics with
            | error e0 =>
              simp [run_training_pipeline, hl, hm, he, hg, hs] at hn
              omega
            | ok path => simp [run_training_pipeline, hl, hm, he, hg, hs] at hn
  · intro split model metrics ok path hl hm he hg hs
    refine ⟨?_, ?_⟩ <;>
      simp [run_training_pipeline, driver_exit_code, hl, hm, he, hg, hs]

/-- C4 witness: a concrete environment whose first three stages succeed
and whose metrics fail the default accuracy gate exits with code 1 and
never invokes the save stage. -/
theorem c4_pipeline_sequencing_witness :
    (run_training_pipeline default_config c4_gate_fail_env).1 =
      PipelineOutcome.exitCode 1 ∧
    Stage.saveModel ∉ (run_training_pipeline default_config c4_gate_fail_env).2 :=
  (c4_pipeline_sequencing default_config c4_gate_fail_env).2.1
    ⟨[], [], [], []⟩ dummy_model gate_fail_metrics rfl rfl rfl (by rfl)

/-- C5: with a model loaded, `predict` succeeds exactly on feature
vectors of length 10 (given the classifier capability returns a
nonempty probability vector); any other length raises a validation error
naming the expected count 10 and the actual count; and this expected
count equals the number of feature columns the Data Provider selects for
training. -/
theorem c5_feature_count_contract (m : FittedModel) (path : String)
    (info : Metrics) (features : List ℚ)
    (hprob : features.length = 10 → m.predictProbaFn features ≠ []) :
    ((ModelPredictor.predict ⟨path, some m, info⟩ features).isOk = true ↔
      features.length = 10) ∧
    (features.length ≠ 10 →
      ModelPredictor.predict ⟨path, some m, info⟩ features =
        Except.error ("Expected 10 features, got " ++ toString features.length)) ∧
    predictor_expected_features = data_provider_num_features := by
  refine ⟨⟨?_, ?_⟩, ?_, rfl⟩
  · intro hok
    by_contra hl
    simp [ModelPredictor.predict, predictor_expected_features, hl, Except.isOk,
      Except.toBool] at hok
  · intro hl
    have hne := hprob hl
    simp only [ModelPredictor.predict, predictor_expected_features]
    rw [if_neg (by simp [hl])]
    cases hpr : m.predictProbaFn features with
    | nil => exact absurd hpr hne
    | cons x rest => simp [pyMax, Except.isOk, Except.toBool]
  · intro hl
    simp only [ModelPredictor.predict, predictor_expected_features]
    rw [if_pos (by simpa using hl)]

/-- C5 witness: a loaded dummy model accepts a concrete vector of ten
features. -/
theorem c5_feature_count_contract_witness :
    (ModelPredictor.predict ⟨"models/model.joblib", some dummy_model, []⟩
        ten_zero_features).isOk = true :=
  (c5_feature_count_contract dummy_model "models/model.joblib" []
      ten_zero_features (fun _ => List.cons_ne_nil _ _)).1.mpr (by decide)

/-- C7 counterexample: for the model path `models/model.bin` (no
`.joblib` substring) the suffix rule is a no-op, `save_model` overwrites
the model blob with the metrics JSON at the same path, and a Predictor
constructed on that path fails its load and exposes an empty
`model_info` — not the metrics record that was saved. -/
theorem c7_roundtrip_fails_without_joblib :
    (ModelPredictor.init
        (save_model empty_fs "models/model.bin" dummy_model sample_metrics).1
        "models/model.bin").model_info ≠ sample_metrics := by
  decide

/-- C7 (amended): the Trainer's `save_model` and the Predictor's
`load_model` derive the metrics path by the same fixed rule (replacing
`.joblib` with `_metrics.json`), and for every model path that contains
`.joblib` — so that the derived metrics path is distinct from the model
path — the metrics record written by `save_model` is exactly the record
the Predictor constructed with that path loads as its `model_info` and
exposes via `/model/info`.  (For a path without `.joblib` the derivation
collapses onto the model path and the round trip fails: see the
counterexample.) -/
theorem c7_metrics_roundtrip (fs : FS) (p : String) (m : FittedModel)
    (metrics : Metrics) (hc : containsSub ".joblib".data p.data = true) :
    train_metrics_path p = predict_metrics_path p ∧
    (ModelPredictor.init (save_model fs p m metrics).1 p).model_info = metrics ∧
    (model_info_endpoint
        (ModelPredictor.init (save_model fs p m metrics).1 p)).2.model_metrics =
      metrics := by
  have hne : train_metrics_path p ≠ p :=
    pyReplace_ne_of_contains p ".joblib" "_metrics.json" (by decide) (by decide) hc
  have hne2 : ¬(p = pyReplace p ".joblib" "_metrics.json") := fun h => hne h.symm
  refine ⟨rfl, ?_, ?_⟩ <;>
    simp [ModelPredictor.init, ModelPredictor.load_model_from, save_model,
      FS.write, model_info_endpoint, train_metrics_path, predict_metrics_path,
      hne2]

/-- C7 witness: the round trip holds at the default model path
`models/model.joblib`. -/
theorem c7_metrics_roundtrip_witness :
    train_metrics_path "models/model.joblib" =
      predict_metrics_path "models/model.joblib" ∧
    (ModelPredictor.init
        (save_model empty_fs "models/model.joblib" dummy_model sample_metrics).1
        "models/model.joblib").model_info = sample_metrics ∧
    (model_info_endpoint
        (ModelPredictor.init
          (save_model empty_fs "models/model.joblib" dummy_model sample_metrics).1
          "models/model.joblib")).2.model_metrics = sample_metrics :=
  c7_metrics_roundtrip empty_fs "models/model.joblib" dummy_model sample_metrics
    (by decide)

/-- C8 counterexample: the metrics record `evaluate_model` returns
contains the wall-clock timestamp, so two runs of the pipeline with
identical configuration, data and library capabilities but different
clock readings produce records that are NOT identical. -/
theorem c8_timestamp_breaks_record_equality :
    training_run_metrics const_lib default_config "2024-01-01T00:00:00" ≠
      training_run_metrics const_lib default_config "2024-01-01T00:00:01" := by
  decide

/-- C8 (amended): training is deterministic given a fixed seed up to the
clock: two runs of the pipeline with identical configuration, identical
data and identical (seeded, hence pure) library capabilities produce
metrics records with identical `accuracy`, `precision`, `recall` and
`f1_score` entries — only the `timestamp` entry can differ between the
two runs. -/
theorem c8_metrics_deterministic_up_to_timestamp
    (lib : MLLib) (cfg : Config) (t1 t2 : String) :
    mlookup (training_run_metrics lib cfg t1) "accuracy" =
      mlookup (training_run_metrics lib cfg t2) "accuracy" ∧
    mlookup (training_run_metrics lib cfg t1) "precision" =
      mlookup (training_run_metrics lib cfg t2) "precision" ∧
    mlookup (training_run_metrics lib cfg t1) "recall" =
      mlookup (training_run_metrics lib cfg t2) "recall" ∧
    mlookup (training_run_metrics lib cfg t1) "f1_score" =
      mlookup (training_run_metrics lib cfg t2) "f1_score" :=
  ⟨rfl, rfl, rfl, rfl⟩

/-- C10: for every model path that does not contain `.joblib`, the
metrics-path derivation in `save_model` is a no-op, so the metrics JSON
is written to the model path itself, overwriting the model blob that was
just dumped there. -/
theorem c10_metrics_overwrite_model (fs : FS) (m : FittedModel)
    (metrics : Metrics) (p : String)
    (h : containsSub ".joblib".data p.data = false) :
    train_metrics_path p = p ∧
    (save_model fs p m metrics).1 p = some (FileData.jsonData metrics) := by
  have hp : train_metrics_path p = p :=
    pyReplace_eq_of_not_contains p ".joblib" "_metrics.json" h
  refine ⟨hp, ?_⟩
  simp [save_model, FS.write, hp]

/-- C10 witness: at the concrete path `models/model.bin` the metrics
JSON ends up at the model path itself. -/
theorem c10_metrics_overwrite_model_witness :
    train_metrics_path "models/model.bin" = "models/model.bin" ∧
    (save_model empty_fs "models/model.bin" dummy_model sample_metrics).1
        "models/model.bin" = some (FileData.jsonData sample_metrics) :=
  c10_metrics_overwrite_model empty_fs dummy_model sample_metrics
    "models/model.bin" (by decide)

end MLCICD
